import Mathlib

/-!
Shallow embedding of the TLS certificate / hostname verification code of
`src/components/net/connector.rs` (the `verify` module and
`create_http_connector`).

Rust `&str` values are modelled by their UTF-8 byte sequences
(`List Nat`, every element a `u8` value, hence `< 256`); all the string
operations the source performs (`ends_with('.')`, `find('*')`,
`match_indices('.')`, slicing, `starts_with`, `ends_with`) are byte-index
operations, so the embedding mirrors them index for index.
`'.' = 46`, `'*' = 42`, and `"xn--" = [120, 110, 45, 45]`.
-/

namespace Connector

/-- UTF-8 bytes of an ASCII string literal (every concrete string used in
this development is ASCII, where code points and UTF-8 bytes coincide). -/
def s2b (s : String) : List Nat := s.data.map Char.toNat

/-- Model of `std::net::IpAddr`: a parsed IPv4 address (four `u8` octets)
or a parsed IPv6 address (its eight `u16` segments, as returned by
`Ipv6Addr::segments()`). -/
inductive IpAddr where
  | v4 (a b c d : Nat)
  | v6 (segs : List Nat)
deriving DecidableEq

/-- `((hi as u16) << 8) | lo as u16` for two `u8` values `hi`, `lo`:
since both are `< 256` the shift-or is exactly `hi * 256 + lo`. -/
def u16be (hi lo : Nat) : Nat := hi * 256 + lo

/-- `verify::matches_ip`: exact byte equality against a 4-byte SAN entry
for IPv4, and equality of the eight big-endian 16-bit segments computed
from a 16-byte SAN entry for IPv6; any other length never matches. -/
def matches_ip (expected : IpAddr) (actual : List Nat) : Bool :=
  match expected, actual with
  | .v4 a b c d, [b0, b1, b2, b3] => [b0, b1, b2, b3] == [a, b, c, d]
  | .v6 segs,
    [b0, b1, b2, b3, b4, b5, b6, b7, b8, b9, b10, b11, b12, b13, b14, b15] =>
      [u16be b0 b1, u16be b2 b3, u16be b4 b5, u16be b6 b7,
       u16be b8 b9, u16be b10 b11, u16be b12 b13, u16be b14 b15] == segs
  | _, _ => false

/-- An ASCII decimal digit. -/
def digit? (b : Nat) : Option Nat :=
  if 48 ≤ b ∧ b ≤ 57 then some (b - 48) else none

/-- An ASCII hexadecimal digit. -/
def hexDigit? (b : Nat) : Option Nat :=
  if 48 ≤ b ∧ b ≤ 57 then some (b - 48)
  else if 97 ≤ b ∧ b ≤ 102 then some (b - 87)
  else if 65 ≤ b ∧ b ≤ 70 then some (b - 55)
  else none

/-- One dotted-decimal IPv4 octet: one to three decimal digits with value
at most 255 (models `std`'s IPv4 group parsing). -/
def parseOctet (ds : List Nat) : Option Nat :=
  match ds.mapM digit? with
  | some digits =>
      if 1 ≤ digits.length ∧ digits.length ≤ 3 then
        let v := digits.foldl (fun acc d => acc * 10 + d) 0
        if v ≤ 255 then some v else none
      else none
  | none => none

/-- Models `Ipv4Addr::from_str`: exactly four dotted-decimal octets. -/
def parseIpv4 (s : List Nat) : Option IpAddr :=
  match s.splitOn 46 with
  | [p0, p1, p2, p3] =>
    match parseOctet p0, parseOctet p1, parseOctet p2, parseOctet p3 with
    | some a, some b, some c, some d => some (.v4 a b c d)
    | _, _, _, _ => none
  | _ => none

/-- One IPv6 group: one to four hex digits. -/
def parseHexGroup (ds : List Nat) : Option Nat :=
  match ds.mapM hexDigit? with
  | some digits =>
      if 1 ≤ digits.length ∧ digits.length ≤ 4 then
        some (digits.foldl (fun acc d => acc * 16 + d) 0)
      else none
  | none => none

/-- Split a byte string at the first occurrence of `"::"`, if any. -/
def splitDoubleColon : List Nat → Option (List Nat × List Nat)
  | [] => none
  | 58 :: 58 :: rest => some ([], rest)
  | b :: rest =>
    match splitDoubleColon rest with
    | some (l, r) => some (b :: l, r)
    | none => none

/-- Parse a colon-separated run of IPv6 groups into 16-bit segments; the
last group may be an embedded dotted-decimal IPv4 address (two segments),
when `allowV4` holds. An empty byte string yields no segments. -/
def parseV6Groups (s : List Nat) (allowV4 : Bool) : Option (List Nat) :=
  if s = [] then some []
  else
    let gs := s.splitOn 58
    let rec go : List (List Nat) → Option (List Nat)
      | [] => some []
      | [g] =>
        if allowV4 ∧ g.count 46 > 0 then
          match parseIpv4 g with
          | some (.v4 a b c d) => some [u16be a b, u16be c d]
          | _ => none
        else
          match parseHexGroup g with
          | some v => some [v]
          | none => none
      | g :: rest =>
        match parseHexGroup g, go rest with
        | some v, some vs => some (v :: vs)
        | _, _ => none
    go gs

/-- Models `Ipv6Addr::from_str`: eight groups, or fewer with one `"::"`
abbreviation standing for at least one zero group; an embedded IPv4
address may supply the final two segments. -/
def parseIpv6 (s : List Nat) : Option IpAddr :=
  match splitDoubleColon s with
  | none =>
    match parseV6Groups s true with
    | some segs => if segs.length = 8 then some (.v6 segs) else none
    | none => none
  | some (l, r) =>
    match splitDoubleColon r with
    | some _ => none
    | none =>
      match parseV6Groups l false, parseV6Groups r true with
      | some hd, some tl =>
        if hd.length + tl.length ≤ 7 then
          some (.v6 (hd ++ List.replicate (8 - hd.length - tl.length) 0 ++ tl))
        else none
      | _, _ => none

/-- Models `str::parse::<IpAddr>()` (`IpAddr::from_str`): try IPv4 first,
then IPv6. -/
def parseIp (s : List Nat) : Option IpAddr :=
  match parseIpv4 s with
  | some ip => some ip
  | none => parseIpv6 s

/-- A UTF-8 continuation byte (`0x80 ..= 0xBF`). -/
def isCont (b : Nat) : Bool := 128 ≤ b && b ≤ 191

/-- Models the validity check of `str::from_utf8` (RFC 3629 UTF-8:
overlong encodings, surrogates and code points above `U+10FFFF` are
rejected). `str::from_utf8` returns `Ok` exactly on byte sequences this
predicate accepts, viewing the same bytes as the string. -/
def validUtf8 : List Nat → Bool
  | [] => true
  | b :: r =>
    if b ≤ 127 then validUtf8 r
    else if 194 ≤ b && b ≤ 223 then
      match r with
      | c1 :: r2 => isCont c1 && validUtf8 r2
      | [] => false
    else if b = 224 then
      match r with
      | c1 :: c2 :: r2 => (160 ≤ c1 && c1 ≤ 191) && isCont c2 && validUtf8 r2
      | _ => false
    else if 225 ≤ b && b ≤ 236 then
      match r with
      | c1 :: c2 :: r2 => isCont c1 && isCont c2 && validUtf8 r2
      | _ => false
    else if b = 237 then
      match r with
      | c1 :: c2 :: r2 => (128 ≤ c1 && c1 ≤ 159) && isCont c2 && validUtf8 r2
      | _ => false
    else if 238 ≤ b && b ≤ 239 then
      match r with
      | c1 :: c2 :: r2 => isCont c1 && isCont c2 && validUtf8 r2
      | _ => false
    else if b = 240 then
      match r with
      | c1 :: c2 :: c3 :: r2 =>
        (144 ≤ c1 && c1 ≤ 191) && isCont c2 && isCont c3 && validUtf8 r2
      | _ => false
    else if 241 ≤ b && b ≤ 243 then
      match r with
      | c1 :: c2 :: c3 :: r2 => isCont c1 && isCont c2 && isCont c3 && validUtf8 r2
      | _ => false
    else if b = 244 then
      match r with
      | c1 :: c2 :: c3 :: r2 =>
        (128 ≤ c1 && c1 ≤ 143) && isCont c2 && isCont c3 && validUtf8 r2
      | _ => false
    else false

/-- Model of `openssl::x509::GeneralName`: a Subject Alternative Name
entry. Only `dnsname()` and `ipaddress()` are consulted by the source;
`other` stands for every other SAN kind (email, URI, ...), for which both
accessors return `None`. -/
inductive GeneralName where
  | dns (name : List Nat)
  | ip (bytes : List Nat)
  | other
deriving DecidableEq

/-- `GeneralName::dnsname()`. -/
def GeneralName.dnsname : GeneralName → Option (List Nat)
  | .dns n => some n
  | _ => none

/-- `GeneralName::ipaddress()`. -/
def GeneralName.ipaddress : GeneralName → Option (List Nat)
  | .ip b => some b
  | _ => none

/-- One `X509NameEntry`: its NID and its raw data bytes. -/
structure X509NameEntry where
  nid : Nat
  data : List Nat
deriving DecidableEq

/-- `openssl::nid::COMMONNAME` (`NID_commonName = 13`). -/
def NID_COMMONNAME : Nat := 13

/-- Model of `openssl::x509::X509Name`: its entries, in order. -/
structure X509Name where
  entries : List X509NameEntry
deriving DecidableEq

/-- `X509NameRef::entries_by_nid`: the entries with the given NID, in
order; the source only ever takes `.next()` (the head) of this. -/
def X509Name.entries_by_nid (n : X509Name) (nid : Nat) : List X509NameEntry :=
  n.entries.filter (fun e => e.nid == nid)

/-- Model of a certificate (`X509Ref`): the two pieces the source reads,
`subject_alt_names()` (`None` when the certificate has no SAN extension)
and `subject_name()`. -/
structure X509 where
  subject_alt_names : Option (List GeneralName)
  subject_name : X509Name
deriving DecidableEq

/-- Model of `X509StoreContextRef`: the two pieces the source reads,
`error_depth()` and `current_cert()`. -/
structure X509StoreContext where
  error_depth : Nat
  current_cert : Option X509
deriving DecidableEq

/-- The trailing-dot normalization performed at the top of
`verify::matches_dns`: `if pattern.ends_with('.') { pattern =
&pattern[..pattern.len() - 1]; }` (`'.'` is one byte). -/
def strip_trailing_dot (s : List Nat) : List Nat :=
  if s.getLast? = some 46 then s.dropLast else s

/-- `verify::matches_wildcard`, byte-for-byte: `none` models the Rust
`None` ("wildcard rules do not apply, fall back to equality"),
`some b` a definitive wildcard answer. -/
def matches_wildcard (pattern hostname : List Nat) (is_ip : Bool) : Option Bool :=
  if is_ip || [120, 110, 45, 45].isPrefixOf pattern then none
  else
    match pattern.indexOf? 42 with
    | none => none
    | some wildcard_location =>
      match pattern.indexOf? 46 with
      | none => none
      | some wildcard_end =>
        if pattern.count 46 < 2 then none
        else if wildcard_end < wildcard_location then none
        else
          match hostname.indexOf? 46 with
          | none => none
          | some hostname_label_end =>
            if pattern.drop wildcard_end ≠ hostname.drop hostname_label_end then
              some false
            else
              let wildcard_pre := pattern.take wildcard_location
              let wildcard_suf := (pattern.take wildcard_end).drop (wildcard_location + 1)
              let hostname_label := hostname.take hostname_label_end
              if ¬ wildcard_pre.isPrefixOf hostname_label then some false
              else if ¬ wildcard_suf.isSuffixOf (hostname_label.drop wildcard_pre.length) then
                some false
              else some true

/-- `verify::matches_dns`: strip a trailing dot from each side, then try
the wildcard rules, falling back to exact equality when they do not
apply. -/
def matches_dns (pattern hostname : List Nat) (is_ip : Bool) : Bool :=
  let pattern := strip_trailing_dot pattern
  let hostname := strip_trailing_dot hostname
  (matches_wildcard pattern hostname is_ip).getD (pattern == hostname)

/-- `verify::verify_subject_alt_names`: if the domain parses as an IP
address, compare only IP-type SAN entries with `matches_ip`; otherwise
compare only DNS-type SAN entries with `matches_dns`; accept on the first
match. -/
def verify_subject_alt_names (domain : List Nat) (names : List GeneralName) : Bool :=
  let ip := parseIp domain
  names.any fun name =>
    match ip with
    | some ip =>
      match name.ipaddress with
      | some actual => matches_ip ip actual
      | none => false
    | none =>
      match name.dnsname with
      | some pattern => matches_dns pattern domain false
      | none => false

/-- `verify::verify_subject_name`: consult only the first Common Name
entry; reject if its bytes are not valid UTF-8; otherwise run
`matches_dns` with `is_ip` recording whether the domain parses as an IP
address (to disallow wildcard matches against patterns like `*.0.0.1`). -/
def verify_subject_name (domain : List Nat) (subject_name : X509Name) : Bool :=
  match (subject_name.entries_by_nid NID_COMMONNAME).head? with
  | some entry =>
    if validUtf8 entry.data then
      let is_ip := (parseIp domain).isSome
      matches_dns entry.data domain is_ip
    else false
  | none => false

/-- `verify::verify_hostname`: SAN entries when the certificate has the
extension, the subject Common Name only otherwise. -/
def verify_hostname (domain : List Nat) (cert : X509) : Bool :=
  match cert.subject_alt_names with
  | some names => verify_subject_alt_names domain names
  | none => verify_subject_name domain cert.subject_name

/-- `verify::verify_callback`: defer to the preliminary result when it
failed or when the depth is not 0; at the leaf with a passing preliminary
result, require the hostname check — and accept when no current
certificate is available. -/
def verify_callback (domain : List Nat) (preverify_ok : Bool)
    (x509_ctx : X509StoreContext) : Bool :=
  if !preverify_ok || x509_ctx.error_depth != 0 then preverify_ok
  else
    match x509_ctx.current_cert with
    | some x509 => verify_hostname domain x509
    | none => true

/-- One PEM block of the trust-bundle file; `valid` records whether it
parses as a certificate. -/
structure PemBlock where
  valid : Bool
deriving DecidableEq

/-- Model of `rustls::RootCertStore`: the certificates added so far. -/
structure RootCertStore where
  roots : List PemBlock
deriving DecidableEq

/-- The trust-bundle file as the filesystem presents it to
`create_http_connector`: `none` when `File::open` fails, otherwise the
PEM blocks the file contains. -/
def TrustFile := Option (List PemBlock)

/-- `SslContextBuilder::set_ca_file`: errors when the file cannot be read
or yields no certificate. The source DISCARDS this result. -/
def set_ca_file (file : Option (List PemBlock)) : Except Unit Unit :=
  match file with
  | none => Except.error ()
  | some blocks => if blocks.any (fun b => b.valid) then Except.ok () else Except.error ()

/-- `RootCertStore::add_pem_file`: adds every block that parses, and
returns the pair (certificates added, blocks skipped); on an opened file
it never errors, whatever the contents. The source discards the counts
(`.unwrap().0;`). -/
def add_pem_file (store : RootCertStore) (blocks : List PemBlock) :
    RootCertStore × Nat × Nat :=
  (⟨store.roots ++ blocks.filter (fun b => b.valid)⟩,
   (blocks.filter (fun b => b.valid)).length,
   (blocks.filter (fun b => !b.valid)).length)

/-- The connector state `create_http_connector` builds: whether the
OpenSSL context ended up with the CA file loaded, and the rustls root
store contents. -/
structure ConnectorState where
  openssl_ca_loaded : Bool
  roots : RootCertStore
deriving DecidableEq

/-- `create_http_connector`, over the trust-bundle file contents: the
`set_ca_file` result is discarded; `File::open(...).unwrap()` aborts
(models the `unwrap` panic, `none`) when the file cannot be opened;
`add_pem_file(...).unwrap().0` never aborts on an opened file and its
counts are discarded, so construction succeeds with whatever certificates
parsed — possibly none. -/
def create_http_connector (file : Option (List PemBlock)) : Option ConnectorState :=
  let ca_result := set_ca_file file
  match file with
  | none => none
  | some blocks =>
    let store := (add_pem_file ⟨[]⟩ blocks).1
    some { openssl_ca_loaded := ca_result.toBool
           roots := store }

/-! Theorems settling the claims. -/

/-- C1: at leaf depth (depth 0), with the leaf certificate present, the
verifier accepts exactly when both the underlying preliminary check
passed and the hostname matcher accepts the leaf's identities — so a
matcher rejection forces `false` even with a passing preliminary check,
and a failed preliminary check forces `false` even when the matcher
would accept. -/
theorem verify_callback_leaf_gates (domain : List Nat) (preverify_ok : Bool)
    (x509_ctx : X509StoreContext) (cert : X509)
    (hdepth : x509_ctx.error_depth = 0) (hcert : x509_ctx.current_cert = some cert) :
    verify_callback domain preverify_ok x509_ctx =
      (preverify_ok && verify_hostname domain cert) := by
  cases preverify_ok <;> simp [verify_callback, hdepth, hcert]

/-- Witness for C1 at a concrete input. -/
theorem verify_callback_leaf_gates_witness :
    verify_callback (s2b "foo.example.com") true
      ⟨0, some ⟨some [GeneralName.dns (s2b "foo.example.com")], ⟨[]⟩⟩⟩ =
      (true && verify_hostname (s2b "foo.example.com")
        ⟨some [GeneralName.dns (s2b "foo.example.com")], ⟨[]⟩⟩) :=
  verify_callback_leaf_gates _ _ _ _ rfl rfl

/-- C2: the code does NOT fail closed when the chain lacks even the leaf
certificate — at depth 0 with a passing preliminary check and no current
certificate, `verify_callback` returns `true` (accepts). -/
theorem verify_callback_missing_leaf_accepts :
    verify_callback (s2b "example.com") true ⟨0, none⟩ = true := rfl

/-- C9: at any non-leaf depth the verifier returns exactly the underlying
library's preliminary result. -/
theorem verify_callback_nonleaf_defers (domain : List Nat) (preverify_ok : Bool)
    (x509_ctx : X509StoreContext) (hdepth : x509_ctx.error_depth ≠ 0) :
    verify_callback domain preverify_ok x509_ctx = preverify_ok := by
  cases preverify_ok <;> simp [verify_callback, hdepth]

/-- Witness for C9 at a concrete input. -/
theorem verify_callback_nonleaf_defers_witness :
    verify_callback (s2b "example.com") false
      ⟨1, some ⟨some [GeneralName.dns (s2b "example.com")], ⟨[]⟩⟩⟩ = false :=
  verify_callback_nonleaf_defers _ _ _ (by decide)

/-- C4: when the certificate carries Subject Alternative Name entries,
the subject Common Name is never consulted: whatever the subject name
holds, a SAN evaluation that rejects makes the matcher reject. -/
theorem verify_hostname_san_shadows_cn (domain : List Nat) (names : List GeneralName)
    (sn : X509Name) (_hne : names ≠ [])
    (hno : verify_subject_alt_names domain names = false) :
    verify_hostname domain ⟨some names, sn⟩ = false := by
  simpa [verify_hostname] using hno

/-- Witness for C4: the Common Name equals the requested host, yet with a
non-matching SAN present the matcher rejects. -/
theorem verify_hostname_san_shadows_cn_witness :
    verify_hostname (s2b "example.com")
      ⟨some [GeneralName.dns (s2b "other.com")],
       ⟨[⟨NID_COMMONNAME, s2b "example.com"⟩]⟩⟩ = false :=
  verify_hostname_san_shadows_cn _ _ _ (by decide) (by decide)

/-- C10: with no SAN entries, only the first Common Name entry is ever
consulted (the result is unchanged by whatever follows it), and a first
Common Name entry whose bytes are not valid UTF-8 makes the matcher
return `false` rather than erroring or accepting. -/
theorem verify_subject_name_first_cn (domain : List Nat) (pre : List X509NameEntry)
    (d : List Nat) (r1 r2 : List X509NameEntry)
    (hpre : ∀ e ∈ pre, e.nid ≠ NID_COMMONNAME) :
    (verify_subject_name domain ⟨pre ++ ⟨NID_COMMONNAME, d⟩ :: r1⟩ =
      verify_subject_name domain ⟨pre ++ ⟨NID_COMMONNAME, d⟩ :: r2⟩) ∧
    (validUtf8 d = false →
      verify_subject_name domain ⟨pre ++ ⟨NID_COMMONNAME, d⟩ :: r1⟩ = false) := by
  have hfil : ∀ r : List X509NameEntry,
      (X509Name.entries_by_nid ⟨pre ++ ⟨NID_COMMONNAME, d⟩ :: r⟩ NID_COMMONNAME).head? =
        some ⟨NID_COMMONNAME, d⟩ := by
    intro r
    unfold X509Name.entries_by_nid
    rw [List.filter_append]
    have hnil : pre.filter (fun e => e.nid == NID_COMMONNAME) = [] := by
      rw [List.filter_eq_nil_iff]
      intro e he
      simpa using hpre e he
    simp [hnil]
  refine ⟨?_, ?_⟩
  · unfold verify_subject_name
    rw [hfil r1, hfil r2]
  · intro hbad
    unfold verify_subject_name
    rw [hfil r1]
    simp [hbad]

/-- Witness for C10: a non-CN entry first, then an invalid-UTF-8 Common
Name, then a Common Name that would match the host — rejected, because
only the first Common Name entry is read. -/
theorem verify_subject_name_first_cn_witness :
    verify_subject_name (s2b "a.b")
      ⟨[⟨5, []⟩, ⟨NID_COMMONNAME, [255]⟩, ⟨NID_COMMONNAME, s2b "a.b"⟩]⟩ = false :=
  (verify_subject_name_first_cn (s2b "a.b") [⟨5, []⟩] [255]
      [⟨NID_COMMONNAME, s2b "a.b"⟩] []
      (by intro e he; simp only [List.mem_singleton] at he; subst he; decide)).2
    (by decide)

/-- C8: the code does not fail with a `ConfigError` on a bad trust
bundle: a file that opens but contains no parseable PEM certificate is
accepted silently, producing a connector with an empty root store (and
with the ignored `set_ca_file` failure leaving the OpenSSL context's CA
file unloaded); an unopenable file aborts by `unwrap` panic rather than
a typed error. -/
theorem create_http_connector_accepts_garbage :
    create_http_connector (some [⟨false⟩]) = some ⟨false, ⟨[]⟩⟩ ∧
    create_http_connector none = none := ⟨rfl, rfl⟩

/-- C3 counterexample: the requested host `"1.2.3.4"` parses as an IP
address, the certificate has no SAN entry, and its Common Name
`"1.2.3.4"` alone produces a match — so an identity source other than an
IP-type SAN entry can produce a match for an IP host. -/
theorem verify_hostname_cn_matches_ip_host :
    verify_hostname (s2b "1.2.3.4")
      ⟨none, ⟨[⟨NID_COMMONNAME, s2b "1.2.3.4"⟩]⟩⟩ = true := by decide

/-- C3 amended: when the requested host parses as an IP address and the
certificate carries SAN entries, only IP-type SAN entries are compared —
via `matches_ip`, which for IPv4 is exact equality with the four parsed
octets — and neither DNS-type SAN entries nor the Common Name nor any
wildcard rule can produce a match; absent all SAN entries, the Common
Name may still match the IP literal textually. -/
theorem verify_hostname_ip_san_only (domain : List Nat) (ip : IpAddr)
    (names : List GeneralName) (sn : X509Name) (hip : parseIp domain = some ip) :
    (verify_hostname domain ⟨some names, sn⟩ = true ↔
      ∃ actual, GeneralName.ip actual ∈ names ∧ matches_ip ip actual = true) ∧
    (∀ a b c d actual, matches_ip (IpAddr.v4 a b c d) actual = true ↔
      actual = [a, b, c, d]) := by
  refine ⟨?_, ?_⟩
  · unfold verify_hostname verify_subject_alt_names
    simp only [hip, List.any_eq_true]
    constructor
    · rintro ⟨name, hmem, hname⟩
      cases name with
      | dns n => simp [GeneralName.ipaddress] at hname
      | ip b => exact ⟨b, hmem, by simpa [GeneralName.ipaddress] using hname⟩
      | other => simp [GeneralName.ipaddress] at hname
    · rintro ⟨b, hmem, hb⟩
      exact ⟨.ip b, hmem, by simpa [GeneralName.ipaddress] using hb⟩
  · intro a b c d actual
    rcases actual with _ | ⟨x0, _ | ⟨x1, _ | ⟨x2, _ | ⟨x3, _ | ⟨x4, rest⟩⟩⟩⟩⟩ <;>
      simp [matches_ip]

/-- Witness for C3 (amended) at a concrete input. -/
theorem verify_hostname_ip_san_only_witness :
    verify_hostname (s2b "192.0.2.1")
      ⟨some [GeneralName.ip [192, 0, 2, 1]], ⟨[]⟩⟩ = true :=
  ((verify_hostname_ip_san_only (s2b "192.0.2.1") (IpAddr.v4 192 0 2 1)
      [GeneralName.ip [192, 0, 2, 1]] ⟨[]⟩ (by decide)).1).mpr
    ⟨[192, 0, 2, 1], by decide, by decide⟩

/-- C7: a DNS pattern containing no `*` matches a hostname exactly when
the two are equal after stripping a single trailing dot from each. -/
theorem matches_dns_no_star (pattern hostname : List Nat) (is_ip : Bool)
    (hstar : 42 ∉ pattern) :
    (matches_dns pattern hostname is_ip = true ↔
      strip_trailing_dot pattern = strip_trailing_dot hostname) := by
  have hstar' : 42 ∉ strip_trailing_dot pattern := by
    intro hmem
    apply hstar
    unfold strip_trailing_dot at hmem
    split at hmem
    · exact (List.dropLast_sublist pattern).subset hmem
    · exact hmem
  have hidx : (strip_trailing_dot pattern).indexOf? 42 = none := by
    rw [List.indexOf?_eq_none_iff]
    intro x hx
    simp only [beq_iff_eq]
    intro h
    subst h
    exact hstar' hx
  have hw : matches_wildcard (strip_trailing_dot pattern)
      (strip_trailing_dot hostname) is_ip = none := by
    unfold matches_wildcard
    by_cases h0 : (is_ip || [120, 110, 45, 45].isPrefixOf (strip_trailing_dot pattern)) = true
    · simp [h0]
    · simp only [Bool.not_eq_true] at h0
      simp [h0, hidx]
  unfold matches_dns
  simp only [hw]
  simp

/-- Witness for C7 at a concrete input with a trailing dot. -/
theorem matches_dns_no_star_witness :
    matches_dns (s2b "example.com.") (s2b "example.com") false = true ↔
      strip_trailing_dot (s2b "example.com.") = strip_trailing_dot (s2b "example.com") :=
  matches_dns_no_star _ _ _ (by decide)

/-- C5: on inputs in normalized form (no trailing dot, as `matches_dns`
compares them), wildcard matching is never applied when the requested
host is an IP literal, when the pattern starts with the ACE prefix
`xn--`, or when the pattern has fewer than two `.` characters; in all
these ineligible cases the matcher falls back to exact string equality
between pattern and hostname. -/
theorem matches_dns_ineligible (pattern hostname : List Nat) (is_ip : Bool)
    (hp : pattern.getLast? ≠ some 46) (hh : hostname.getLast? ≠ some 46)
    (hin : is_ip = true ∨ [120, 110, 45, 45].isPrefixOf pattern = true ∨
      pattern.count 46 < 2) :
    matches_dns pattern hostname is_ip = (pattern == hostname) := by
  have hsp : strip_trailing_dot pattern = pattern := by
    unfold strip_trailing_dot
    rw [if_neg hp]
  have hsh : strip_trailing_dot hostname = hostname := by
    unfold strip_trailing_dot
    rw [if_neg hh]
  have hw : matches_wildcard pattern hostname is_ip = none := by
    rcases hin with h | h | h
    · simp [matches_wildcard, h]
    · simp [matches_wildcard, h]
    · unfold matches_wildcard
      by_cases h0 : (is_ip || [120, 110, 45, 45].isPrefixOf pattern) = true
      · simp [h0]
      · simp only [Bool.not_eq_true] at h0
        cases hs : pattern.indexOf? 42 with
        | none => simp [h0, hs]
        | some wl =>
          cases hd : pattern.indexOf? 46 with
          | none => simp [h0, hs, hd]
          | some we => simp [h0, hs, hd, h]
  unfold matches_dns
  simp only [hsp, hsh, hw]
  rfl

/-- Witness for C5: `*.com` has a single dot, so it never wildcard-matches
and falls back to (failed) exact equality. -/
theorem matches_dns_ineligible_witness :
    matches_dns (s2b "*.com") (s2b "foo.com") false =
      (s2b "*.com" == s2b "foo.com") :=
  matches_dns_ineligible _ _ _ (by decide) (by decide) (Or.inr (Or.inr (by decide)))

/-- C6: for a wildcard-eligible DNS pattern (on normalized inputs), a
match forces the pattern's suffix from its first `.` to be byte-identical
to the hostname's suffix from its first `.`, and the literal text before
and after the `*` in the wildcard label to be a prefix and a suffix of
the hostname's first label; concretely `*.example.com` matches
`foo.example.com` but matches neither `foo.bar.example.com` nor
`example.com`. -/
theorem matches_wildcard_one_label :
    (∀ (pattern hostname : List Nat) (wl we hle : Nat),
      pattern.getLast? ≠ some 46 → hostname.getLast? ≠ some 46 →
      [120, 110, 45, 45].isPrefixOf pattern = false →
      pattern.indexOf? 42 = some wl → pattern.indexOf? 46 = some we →
      2 ≤ pattern.count 46 → wl < we →
      hostname.indexOf? 46 = some hle →
      matches_dns pattern hostname false = true →
      pattern.drop we = hostname.drop hle ∧
      (pattern.take wl).isPrefixOf (hostname.take hle) = true ∧
      ((pattern.take we).drop (wl + 1)).isSuffixOf (hostname.take hle) = true) ∧
    matches_dns (s2b "*.example.com") (s2b "foo.example.com") false = true ∧
    matches_dns (s2b "*.example.com") (s2b "foo.bar.example.com") false = false ∧
    matches_dns (s2b "*.example.com") (s2b "example.com") false = false := by
  refine ⟨?_, by decide, by decide, by decide⟩
  intro pattern hostname wl we hle hp hh hxn hstar hdot hcnt hord hhle hm
  have hsp : strip_trailing_dot pattern = pattern := by
    unfold strip_trailing_dot
    rw [if_neg hp]
  have hsh : strip_trailing_dot hostname = hostname := by
    unfold strip_trailing_dot
    rw [if_neg hh]
  unfold matches_dns at hm
  simp only [hsp, hsh] at hm
  unfold matches_wildcard at hm
  rw [hxn, Bool.or_false] at hm
  rw [if_neg Bool.false_ne_true] at hm
  simp only [hstar, hdot, hhle] at hm
  rw [if_neg (show ¬ pattern.count 46 < 2 by omega),
      if_neg (show ¬ we < wl by omega)] at hm
  by_cases hc1 : pattern.drop we = hostname.drop hle
  · rw [if_neg (fun hcon => hcon hc1)] at hm
    by_cases hc2 : (pattern.take wl).isPrefixOf (hostname.take hle) = true
    · by_cases hc3 : ((pattern.take we).drop (wl + 1)).isSuffixOf
          ((hostname.take hle).drop (pattern.take wl).length) = true
      · refine ⟨hc1, hc2, ?_⟩
        rw [List.isSuffixOf_iff_suffix] at hc3 ⊢
        exact hc3.trans (List.drop_suffix _ _)
      · rw [if_neg (fun hcon => hcon hc2), if_pos hc3] at hm
        simp at hm
    · rw [if_pos hc2] at hm
      simp at hm
  · rw [if_pos hc1] at hm
    simp at hm

/-- Witness for C6 at `*.example.com` against `api.example.com`. -/
theorem matches_wildcard_one_label_witness :
    (s2b "*.example.com").drop 1 = (s2b "api.example.com").drop 3 ∧
    ((s2b "*.example.com").take 0).isPrefixOf ((s2b "api.example.com").take 3) = true ∧
    (((s2b "*.example.com").take 1).drop 1).isSuffixOf ((s2b "api.example.com").take 3) = true :=
  matches_wildcard_one_label.1 (s2b "*.example.com") (s2b "api.example.com") 0 1 3
    (by decide) (by decide) (by decide) (by decide) (by decide) (by decide)
    (by decide) (by decide) (by decide)

end Connector
